import Mathlib

/-!
Verification of `internal/reflectbuild/reflectbuild.go` (package `reflectbuild`).

The Go package navigates and mutates an arbitrary Go value through
`reflect`.  We shallowly embed the fragment of Go's data model that the
package manipulates: a `GoType` describes the static type of a storage
location, a `GoVal` its current contents, and a `reflect.Value` — which in
Go is a typed reference into some storage — is embedded as a `Path` of
navigation steps from the root storage owned by the `Builder`.

Go's runtime panics are modelled by a `Res.fatal` outcome, the recoverable
errors of the package (`IncorrectKindError`, `FieldNotFoundError`) by
`Res.err`, which also carries the post-state of the builder (Go methods
mutate the receiver in place and return the error value).
-/

set_option autoImplicit false

namespace Reflectbuild

/-- The kinds of `reflect.Kind` that this package distinguishes
(map/chan/func/array kinds are never produced by the embedded programs). -/
inductive Kind where
  | invalid
  | bool
  | int | int8 | int16 | int32 | int64
  | uint | uint8 | uint16 | uint32 | uint64
  | float32 | float64
  | string
  | ptr
  | slice
  | struct
  | iface
  deriving DecidableEq, Repr

mutual
/-- Go types, as far as the package inspects them. A struct type carries
its ordered field list. -/
inductive GoType where
  | bool
  | string
  | int | int8 | int16 | int32 | int64
  | uint | uint8 | uint16 | uint32 | uint64
  | float32 | float64
  | ptr (elem : GoType)
  | slice (elem : GoType)
  | struct (fields : GoFields)
  | iface
  deriving DecidableEq, Repr

/-- An ordered list of struct fields (a bespoke list so that equality
stays decidable). -/
inductive GoFields where
  | nil
  | cons (f : StructField) (rest : GoFields)
  deriving DecidableEq, Repr

/-- One struct field: declared name, struct-tag entries (key/value pairs,
as consulted by `Tag.Lookup`), whether it is exported (`PkgPath == ""`),
whether it is anonymous (embedded), and its type. -/
inductive StructField where
  | mk (name : String) (tags : List (String × String)) (exported : Bool)
      (anonymous : Bool) (ty : GoType)
  deriving DecidableEq, Repr
end

def StructField.name : StructField → String
  | .mk n _ _ _ _ => n

def StructField.tags : StructField → List (String × String)
  | .mk _ t _ _ _ => t

def StructField.exported : StructField → Bool
  | .mk _ _ e _ _ => e

def StructField.anonymous : StructField → Bool
  | .mk _ _ _ a _ => a

def StructField.ty : StructField → GoType
  | .mk _ _ _ _ t => t

/-- `reflect.Type.NumField`, on the field list. -/
def GoFields.length : GoFields → Nat
  | .nil => 0
  | .cons _ rest => rest.length + 1

/-- `reflect.Type.Field(i)`, on the field list. -/
def GoFields.get? : GoFields → Nat → Option StructField
  | .nil, _ => none
  | .cons f _, 0 => some f
  | .cons _ rest, i + 1 => rest.get? i

/-- `reflect.Type.Kind`. -/
def GoType.kind : GoType → Kind
  | .bool => .bool
  | .string => .string
  | .int => .int
  | .int8 => .int8
  | .int16 => .int16
  | .int32 => .int32
  | .int64 => .int64
  | .uint => .uint
  | .uint8 => .uint8
  | .uint16 => .uint16
  | .uint32 => .uint32
  | .uint64 => .uint64
  | .float32 => .float32
  | .float64 => .float64
  | .ptr _ => .ptr
  | .slice _ => .slice
  | .struct _ => .struct
  | .iface => .iface

mutual
/-- Runtime values. All integer kinds share the `vint` representation (the
static type records the exact kind); float payloads are carried opaquely
as a bit pattern, which the package only stores, never computes with. -/
inductive GoVal where
  | vbool (b : Bool)
  | vstring (s : String)
  | vint (n : Int)
  | vfloat (bits : Nat)
  | vptr (p : GoPtr)
  | vslice (elems : GoVals)
  | vstruct (fields : GoVals)
  | viface (v : GoIface)
  deriving DecidableEq, Repr

/-- A pointer: nil, or a reference to a value. -/
inductive GoPtr where
  | nil
  | to (w : GoVal)
  deriving DecidableEq, Repr

/-- A list of values (slice elements or struct fields, in order). -/
inductive GoVals where
  | nil
  | cons (v : GoVal) (rest : GoVals)
  deriving DecidableEq, Repr

/-- An interface value: empty, or a boxed value with its dynamic type. -/
inductive GoIface where
  | nil
  | box (t : GoType) (w : GoVal)
  deriving DecidableEq, Repr
end

def GoVals.length : GoVals → Nat
  | .nil => 0
  | .cons _ rest => rest.length + 1

def GoVals.get? : GoVals → Nat → Option GoVal
  | .nil, _ => none
  | .cons v _, 0 => some v
  | .cons _ rest, i + 1 => rest.get? i

/-- Replace the element at index `i` (identity when out of range). -/
def GoVals.set : GoVals → Nat → GoVal → GoVals
  | .nil, _, _ => .nil
  | .cons _ rest, 0, w => .cons w rest
  | .cons v rest, i + 1, w => .cons v (rest.set i w)

/-- Append one element at the end (`reflect.Append`). -/
def GoVals.push : GoVals → GoVal → GoVals
  | .nil, w => .cons w .nil
  | .cons v rest, w => .cons v (rest.push w)

mutual
/-- The zero value of a type (`reflect.New(t).Elem()`). -/
def zeroVal : GoType → GoVal
  | .bool => .vbool false
  | .string => .vstring ""
  | .int => .vint 0
  | .int8 => .vint 0
  | .int16 => .vint 0
  | .int32 => .vint 0
  | .int64 => .vint 0
  | .uint => .vint 0
  | .uint8 => .vint 0
  | .uint16 => .vint 0
  | .uint32 => .vint 0
  | .uint64 => .vint 0
  | .float32 => .vfloat 0
  | .float64 => .vfloat 0
  | .ptr _ => .vptr .nil
  | .slice _ => .vslice .nil
  | .struct fs => .vstruct (zeroFields fs)
  | .iface => .viface .nil

/-- Zero values of a struct's fields, in order. -/
def zeroFields : GoFields → GoVals
  | .nil => .nil
  | .cons (.mk _ _ _ _ ty) fs => .cons (zeroVal ty) (zeroFields fs)
end

/-- One navigation step of a `reflect.Value` derived from the root:
entering a struct field, indexing a slice, dereferencing a pointer, or
unwrapping an interface. -/
inductive Step where
  | field (i : Nat)
  | index (i : Nat)
  | deref
  | ifaceElem
  deriving DecidableEq, Repr

/-- A `reflect.Value` reachable from the builder's root storage is a path
of steps from that storage. -/
abbrev Path := List Step

/-- Resolve a path against a typed storage: the type and current contents
of the referenced slot, or `none` when the reference is invalid. -/
def resolve (t : GoType) (v : GoVal) : Path → Option (GoType × GoVal)
  | [] => some (t, v)
  | .deref :: p =>
    match t, v with
    | .ptr e, .vptr (.to w) => resolve e w p
    | _, _ => none
  | .ifaceElem :: p =>
    match t, v with
    | .iface, .viface (.box bt bw) => resolve bt bw p
    | _, _ => none
  | .field i :: p =>
    match t, v with
    | .struct fs, .vstruct vs =>
      match fs.get? i, vs.get? i with
      | some f, some w => resolve f.ty w p
      | _, _ => none
    | _, _ => none
  | .index i :: p =>
    match t, v with
    | .slice e, .vslice xs =>
      match xs.get? i with
      | some w => resolve e w p
      | none => none
    | _, _ => none

/-- Structural storage update: write `nv` into the slot referenced by the
path, producing the updated storage contents (`none` when the reference is
invalid).  This is the raw memory write; reflect's addressability
(`CanSet`) discipline is enforced separately by `canSet`/`writeStore`. -/
def writeAt (v : GoVal) (p : Path) (nv : GoVal) : Option GoVal :=
  match p, v with
  | [], _ => some nv
  | .deref :: p, .vptr (.to w) =>
    (writeAt w p nv).map (fun w' => .vptr (.to w'))
  | .ifaceElem :: p, .viface (.box bt bw) =>
    (writeAt bw p nv).map (fun w' => .viface (.box bt w'))
  | .field i :: p, .vstruct vs =>
    match vs.get? i with
    | some w => (writeAt w p nv).map (fun w' => .vstruct (vs.set i w'))
    | none => none
  | .index i :: p, .vslice xs =>
    match xs.get? i with
    | some w => (writeAt w p nv).map (fun w' => .vslice (xs.set i w'))
    | none => none
  | _, _ => none

/-! ## Field resolution cache

`fieldGetter` closures are embedded as the index path they traverse
(`makeFieldGetterByIndex i` is `[i]`, `makeFieldGetterByIndexes idx` is
`idx`).  Go maps are reference values: storing the map under construction
in the cache for an embedded type aliases it with the parent's map.  We
keep that aliasing by storing maps in a heap (`maps`) and letting cache
entries point to heap slots by index. -/

/-- `structFieldGetters`: field name to accessor index path, with Go map
insertion semantics (last insert for a key wins). -/
abbrev FieldMap := List (String × List Nat)

/-- Go map insert `m[k] = g`. -/
def insertFM (m : FieldMap) (k : String) (g : List Nat) : FieldMap :=
  match m with
  | [] => [(k, g)]
  | (k', g') :: rest => if k' = k then (k, g) :: rest else (k', g') :: insertFM rest k g

/-- Go map lookup `m[k]`. -/
def lookupFM (m : FieldMap) (k : String) : Option (List Nat) :=
  match m with
  | [] => none
  | (k', g') :: rest => if k' = k then some g' else lookupFM rest k

/-- `copyAndAppend`: fresh copy of `s` with `i` appended. -/
def copyAndAppend (s : List Nat) (i : Nat) : List Nat :=
  s ++ [i]

/-- `reflect.StructTag.Lookup(key)`. -/
def lookupTag (tags : List (String × String)) (key : String) : Option String :=
  match tags with
  | [] => none
  | (k, v) :: rest => if k = key then some v else lookupTag rest key

/-- `fieldGettersCache`: heap of maps plus entries from struct type to the
heap slot holding its map (aliased slots model Go's map references). -/
structure Cache where
  maps : List FieldMap
  entries : List (GoType × Nat)
  deriving DecidableEq, Repr

def Cache.lookupEntry (c : Cache) (t : GoType) : Option Nat :=
  go c.entries t
where go : List (GoType × Nat) → GoType → Option Nat
  | [], _ => none
  | (t', id) :: rest, t => if t' = t then some id else go rest t

def Cache.insertEntry (c : Cache) (t : GoType) (id : Nat) : Cache :=
  { c with entries := go c.entries t id }
where go : List (GoType × Nat) → GoType → Nat → List (GoType × Nat)
  | [], t, id => [(t, id)]
  | (t', id') :: rest, t, id =>
    if t' = t then (t, id) :: rest else (t', id') :: go rest t id

/-- The map currently held in heap slot `id`. -/
def Cache.mapAt (c : Cache) (id : Nat) : FieldMap :=
  (c.maps.get? id).getD []

/-- Overwrite the map in heap slot `id`. -/
def Cache.setMap (c : Cache) (id : Nat) (m : FieldMap) : Cache :=
  { c with maps := c.maps.set id m }

/-- Insert a binding into the (shared) map in heap slot `id`. -/
def Cache.updateMap (c : Cache) (id : Nat) (k : String) (g : List Nat) : Cache :=
  c.setMap id (insertFM (c.mapAt id) k g)

mutual
/-- `getOrGenerateFieldGettersRecursive`: fill heap slot `id` with getters
for struct type `s` (index paths prefixed by `idx`), then record `s ↦ id`
in the cache.  `none` models the panic of `NumField` on a non-struct
(anonymous non-struct fields make the source recurse into one). -/
def genRec (tag : String) (c : Cache) (id : Nat) (idx : List Nat) : GoType → Option Cache
  | .struct fs =>
    match genFields tag c id idx 0 fs with
    | some c' => some (c'.insertEntry (.struct fs) id)
    | none => none
  | _ => none

/-- The field loop of `getOrGenerateFieldGettersRecursive`; `i` is the
index of the first field of `fs` within the enclosing struct. -/
def genFields (tag : String) (c : Cache) (id : Nat) (idx : List Nat) (i : Nat) :
    GoFields → Option Cache
  | .nil => some c
  | .cons (.mk nm tags exported anonymous ty) fs =>
    if exported = false then
      -- only consider exported fields
      genFields tag c id idx (i + 1) fs
    else if anonymous then
      match genRec tag c id (copyAndAppend idx i) ty with
      | some c' => genFields tag c' id idx (i + 1) fs
      | none => none
    else
      let fieldName := (lookupTag tags tag).getD nm
      let g := if idx.length = 0 then [i] else copyAndAppend idx i
      genFields tag (c.updateMap id fieldName g) id idx (i + 1) fs
end

/-- `getOrGenerateFieldGetters`: memoized map for struct type `s`; `none`
models the panic on a non-struct argument (and panics inside the walk). -/
def getOrGenerateFieldGetters (tag : String) (c : Cache) (s : GoType) :
    Option (FieldMap × Cache) :=
  if s.kind ≠ .struct then none
  else
    match c.lookupEntry s with
    | some id => some (c.mapAt id, c)
    | none =>
      -- m := make(structFieldGetters, ...): a fresh heap slot at index
      -- c.maps.length, shared by reference during the recursive walk
      match genRec tag { c with maps := c.maps ++ [[]] } c.maps.length [] s with
      | none => none
      | some c2 =>
        some ((c2.insertEntry s c.maps.length).mapAt c.maps.length,
          c2.insertEntry s c.maps.length)

/-! ## Errors, results, and the Builder -/

/-- The package's recoverable errors. -/
inductive RbError where
  | incorrectKind (actual expected : Kind)
  | fieldNotFound (name : String)
  deriving DecidableEq, Repr

/-- Outcome of a Go method call on the builder: normal return, return of a
recoverable error (with the builder's post-state — Go mutates the receiver
in place), or a runtime panic. -/
inductive Res (α : Type) where
  | ok (b : α)
  | err (b : α) (e : RbError)
  | fatal (msg : String)
  deriving DecidableEq, Repr

/-- `checkKind`. -/
def checkKind (actual expected : Kind) : Option RbError :=
  if actual ≠ expected then some (.incorrectKind actual expected) else none

/-- `checkKindInt`: signed integer kinds only. -/
def checkKindInt (k : Kind) : Option RbError :=
  match k with
  | .int | .int8 | .int16 | .int32 | .int64 => none
  | _ => some (.incorrectKind k .int)

/-- `checkKindFloat`. -/
def checkKindFloat (k : Kind) : Option RbError :=
  match k with
  | .float32 | .float64 => none
  | _ => some (.incorrectKind k .float64)

/-- `reflect.Value.SetInt` stores the given `int64` with the plain Go
conversion to the destination's width: two's-complement truncation. -/
def wrapInt (w : Nat) (n : Int) : Int :=
  (n + 2 ^ (w - 1)) % 2 ^ w - 2 ^ (w - 1)

def truncInt : Kind → Int → Int
  | .int8, n => wrapInt 8 n
  | .int16, n => wrapInt 16 n
  | .int32, n => wrapInt 32 n
  | _, n => wrapInt 64 n

/-- The `Builder`.  `store` is the storage the root `reflect.Value` refers
to (`none` when the root value is the invalid zero `reflect.Value`, as
happens for a typed nil pointer argument); `root` and the `stack` entries
are `reflect.Value`s embedded as paths into that storage. -/
structure Builder where
  store : Option (GoType × GoVal)
  root : Path
  stack : List Path
  nameTag : String
  cache : Cache
  deriving DecidableEq, Repr

/-- `reflect.ValueOf(v).Elem()` for a pointer `v`: the pointee, or the
invalid zero `Value` when the pointer is nil. -/
def rvElem : GoType → GoVal → Option (GoType × GoVal)
  | .ptr e, .vptr (.to w) => some (e, w)
  | _, _ => none

/-- `NewBuilder`. -/
def NewBuilder (tag : String) (v : Option (GoType × GoVal)) : Except String Builder :=
  match v with
  | none => .error "cannot build a nil value"
  | some (t, gv) =>
    if t.kind ≠ .ptr then .error "cannot build: need a pointer"
    else .ok { store := rvElem t gv, root := [], stack := [[]],
               nameTag := tag, cache := ⟨[], []⟩ }

/-- The slot's type and contents denoted by a path-embedded
`reflect.Value` of this builder; `none` means the invalid `Value`. -/
def Builder.resolveAt (b : Builder) (p : Path) : Option (GoType × GoVal) :=
  match b.store with
  | some (t, v) => resolve t v p
  | none => none

/-- `reflect.Value.CanSet` of a path-embedded `reflect.Value`: the root
storage (reached through the pointer handed to `NewBuilder`) is
addressable; a struct field inherits its parent's addressability; a slice
element and a pointer's pointee are always addressable; the value
unwrapped from an interface (`Elem()` on an interface) never is. -/
def canSet (p : Path) : Bool :=
  p.foldl
    (fun a s =>
      match s with
      | .field _ => a
      | .index _ => true
      | .deref => true
      | .ifaceElem => false)
    true

/-- Write through a path-embedded `reflect.Value` into the root storage:
the updated storage (type unchanged, new contents), or `none` when the
write is not permitted — the reference is invalid or, as every
`reflect.Value.Set*` demands, the value is not addressable (`CanSet`),
which panics in Go. -/
def Builder.writeStore (b : Builder) (p : Path) (nv : GoVal) :
    Option (GoType × GoVal) :=
  if canSet p then
    match b.store with
    | some (t, v) => (writeAt v p nv).map fun v' => (t, v')
    | none => none
  else none

/-- `replace`: overwrite the top of the stack. -/
def Builder.replaceTop (b : Builder) (q : Path) : Builder :=
  { b with stack := b.stack.dropLast ++ [q] }

/-- The dereference loop at the start of `DigField`: unwrap pointers and
interfaces; `none` when a nil pointer or empty interface yields the
invalid `Value` (whose `Type()` then panics). -/
def derefLoop (t : GoType) (v : GoVal) (p : Path) : Option (GoType × GoVal × Path) :=
  match t, v with
  | .ptr e, .vptr (.to w) => derefLoop e w (p ++ [.deref])
  | .ptr _, .vptr .nil => none
  | .iface, .viface (.box bt bw) => derefLoop bt bw (p ++ [.ifaceElem])
  | .iface, .viface .nil => none
  | t, v => some (t, v, p)

/-! ## The Builder operations -/

/-- `DigField`. -/
def Builder.DigField (b : Builder) (s : String) : Res Builder :=
  match b.stack.getLast? with
  | none => .fatal "runtime error: index out of range"
  | some p =>
    match b.resolveAt p with
    | none => .fatal "reflect: call of reflect.Value.Type on zero Value"
    | some (t0, v0) =>
      match derefLoop t0 v0 p with
      | none => .fatal "reflect: call of reflect.Value.Type on zero Value"
      | some (t, _, p') =>
        match checkKind t.kind .struct with
        | some e => .err b e
        | none =>
          match getOrGenerateFieldGetters b.nameTag b.cache t with
          | none => .fatal "generateFieldGetters can only be called on a struct"
          | some (m, c') =>
            match lookupFM m s with
            | none => .err { b with cache := c' } (.fieldNotFound s)
            | some g =>
              match ({ b with cache := c' } : Builder).resolveAt
                  (p' ++ g.map Step.field) with
              | none => .err { b with cache := c' } (.fieldNotFound s)
              | some _ =>
                .ok (({ b with cache := c' } : Builder).replaceTop
                  (p' ++ g.map Step.field))

/-- `Save`. -/
def Builder.Save (b : Builder) : Res Builder :=
  match b.stack.getLast? with
  | none => .fatal "runtime error: index out of range"
  | some p => .ok { b with stack := b.stack ++ [p] }

/-- `Reset`. -/
def Builder.Reset (b : Builder) : Res Builder :=
  match b.stack with
  | [] => .fatal "runtime error: slice bounds out of range"
  | _ => .ok { b with stack := [b.root] }

/-- `Load`. -/
def Builder.Load (b : Builder) : Res Builder :=
  if b.stack.length < 2 then .fatal "tried to Back() when cursor was already at root"
  else .ok { b with stack := b.stack.dropLast }

/-- `Last`: a no-op except on a non-empty slice. -/
def Builder.Last (b : Builder) : Res Builder :=
  match b.stack.getLast? with
  | none => .fatal "runtime error: index out of range"
  | some p =>
    match b.resolveAt p with
    | none => .ok b
    | some (t, v) =>
      match t, v with
      | .slice _, .vslice xs =>
        if 0 < xs.length then .ok (b.replaceTop (p ++ [.index (xs.length - 1)]))
        else .ok b
      | .slice _, _ => .fatal "reflect: call of reflect.Value.Len on non-slice value"
      | _, _ => .ok b

/-- `SliceNewElem`. -/
def Builder.SliceNewElem (b : Builder) : Res Builder :=
  match b.stack.getLast? with
  | none => .fatal "runtime error: index out of range"
  | some p =>
    match b.resolveAt p with
    | none => .fatal "reflect: call of reflect.Value.Type on zero Value"
    | some (t, v) =>
      match checkKind t.kind .slice with
      | some e => .err b e
      | none =>
        match t, v with
        | .slice et, .vslice xs =>
          match b.writeStore p (.vslice (xs.push (zeroVal et))) with
          | some st =>
            .ok (({ b with store := some st } : Builder).replaceTop
              (p ++ [.index xs.length]))
          | none => .fatal "reflect: unaddressable value"
        | _, _ => .fatal "reflect: call of reflect.Value.Len on non-slice value"

/-- `SliceLastOrCreate`. -/
def Builder.SliceLastOrCreate (b : Builder) : Res Builder :=
  match b.stack.getLast? with
  | none => .fatal "runtime error: index out of range"
  | some p =>
    match b.resolveAt p with
    | none => .fatal "reflect: call of reflect.Value.Type on zero Value"
    | some (t, v) =>
      match checkKind t.kind .slice with
      | some e => .err b e
      | none =>
        match t, v with
        | .slice _, .vslice xs =>
          if xs.length = 0 then b.SliceNewElem else b.Last
        | _, _ => .fatal "reflect: call of reflect.Value.Len on non-slice value"

/-- The `reflect.Append` argument of `SliceAppend`: for a slice of
pointers the supplied pointer itself, otherwise its pointee (`v.Elem()`).
`none` models the panics of `reflect.Append` — a non-assignable argument
type, or the invalid `Elem()` of a nil argument pointer. -/
def sliceAppendArg (et : GoType) (vt : GoType) (vv : GoVal) : Option GoVal :=
  if et.kind = .ptr then
    -- if it is a slice of pointers, we can just append
    if vt = et then some vv else none
  else
    -- otherwise we need to reference the value
    match vt, vv with
    | .ptr pe, .vptr (.to w) => if pe = et then some w else none
    | _, _ => none

/-- The tail of `SliceAppend` after the pointer preamble: `b1` is the
builder (post-allocation), `p1`/`t1`/`v1` the targeted slice slot. -/
def Builder.sliceAppendTail (b1 : Builder) (p1 : Path) (t1 : GoType)
    (v1 : GoVal) (vt : GoType) (vv : GoVal) : Res Builder :=
  match checkKind t1.kind .slice with
  | some e => .err b1 e
  | none =>
    match t1, v1 with
    | .slice et, .vslice xs =>
      match sliceAppendArg et vt vv with
      | none => .fatal "reflect: Append of incompatible value"
      | some av =>
        match b1.writeStore p1 (.vslice (xs.push av)) with
        | some st =>
          .ok (({ b1 with store := some st } : Builder).replaceTop
            (p1 ++ [.index xs.length]))
        | none => .fatal "reflect: unaddressable value"
    | _, _ => .fatal "reflect: call of reflect.Value.Len on non-slice value"

/-- `SliceAppend`.  The argument is a `reflect.Value` owned by the caller,
embedded as its type and contents (the method only reads it). -/
def Builder.SliceAppend (b : Builder) (vt : GoType) (vv : GoVal) : Res Builder :=
  if vt.kind ≠ .ptr then .fatal "value should be a ptr" else
  match b.stack.getLast? with
  | none => .fatal "runtime error: index out of range"
  | some p =>
    match b.resolveAt p with
    | none => .fatal "reflect: call of reflect.Value.Type on zero Value"
    | some (t, v) =>
      -- pointer to a slice: allocate when nil, then target the slice itself
      match t, v with
      | .ptr e, .vptr .nil =>
        match b.writeStore p (.vptr (.to (zeroVal e))) with
        | none => .fatal "reflect: unaddressable value"
        | some st =>
          Builder.sliceAppendTail { b with store := some st }
            (p ++ [.deref]) e (zeroVal e) vt vv
      | .ptr e, .vptr (.to w) =>
        Builder.sliceAppendTail b (p ++ [.deref]) e w vt vv
      | .ptr _, _ => .fatal "reflect: malformed value"
      | t, v => Builder.sliceAppendTail b p t v vt vv

/-- `SetString`.  On a pointer cursor the source executes
`t.Set(reflect.ValueOf(&s))`, which allocates a fresh string; `Set` panics
unless `*string` is assignable to the cursor's type. -/
def Builder.SetString (b : Builder) (s : String) : Res Builder :=
  match b.stack.getLast? with
  | none => .fatal "runtime error: index out of range"
  | some p =>
    match b.resolveAt p with
    | none => .fatal "reflect: call of reflect.Value.Type on zero Value"
    | some (t, _) =>
      if t.kind = .ptr then
        match t with
        | .ptr e =>
          -- `t.Set(reflect.ValueOf(&s))`: `Set` first requires an
          -- addressable destination, then assignability of `*string`
          if canSet p then
            if e = .string then
              match b.writeStore p (.vptr (.to (.vstring s))) with
              | some st => .ok { b with store := some st }
              | none => .fatal "reflect: unaddressable value"
            else .fatal "reflect.Set: value of type *string is not assignable"
          else .fatal "reflect: unaddressable value"
        | _ => .fatal "reflect: malformed value"
      else
        match checkKind t.kind .string with
        | some e => .err b e
        | none =>
          match b.writeStore p (.vstring s) with
          | some st => .ok { b with store := some st }
          | none => .fatal "reflect: unaddressable value"

/-- `SetBool`. -/
def Builder.SetBool (b : Builder) (v : Bool) : Res Builder :=
  match b.stack.getLast? with
  | none => .fatal "runtime error: index out of range"
  | some p =>
    match b.resolveAt p with
    | none => .fatal "reflect: call of reflect.Value.Type on zero Value"
    | some (t, _) =>
      match checkKind t.kind .bool with
      | some e => .err b e
      | none =>
        match b.writeStore p (.vbool v) with
        | some st => .ok { b with store := some st }
        | none => .fatal "reflect: unaddressable value"

/-- `SetFloat`. -/
def Builder.SetFloat (b : Builder) (bits : Nat) : Res Builder :=
  match b.stack.getLast? with
  | none => .fatal "runtime error: index out of range"
  | some p =>
    match b.resolveAt p with
    | none => .fatal "reflect: call of reflect.Value.Type on zero Value"
    | some (t, _) =>
      match checkKindFloat t.kind with
      | some e => .err b e
      | none =>
        match b.writeStore p (.vfloat bits) with
        | some st => .ok { b with store := some st }
        | none => .fatal "reflect: unaddressable value"

/-- `SetInt`. -/
def Builder.SetInt (b : Builder) (n : Int) : Res Builder :=
  match b.stack.getLast? with
  | none => .fatal "runtime error: index out of range"
  | some p =>
    match b.resolveAt p with
    | none => .fatal "reflect: call of reflect.Value.Type on zero Value"
    | some (t, _) =>
      match checkKindInt t.kind with
      | some e => .err b e
      | none =>
        match b.writeStore p (.vint (truncInt t.kind n)) with
        | some st => .ok { b with store := some st }
        | none => .fatal "reflect: unaddressable value"

/-! ## Operation words and reachable builder states -/

/-- One public builder operation with its arguments. -/
inductive Op where
  | digField (s : String)
  | save
  | load
  | reset
  | last
  | sliceLastOrCreate
  | sliceNewElem
  | sliceAppend (vt : GoType) (vv : GoVal)
  | setString (s : String)
  | setBool (v : Bool)
  | setFloat (bits : Nat)
  | setInt (n : Int)
  deriving DecidableEq, Repr

def applyOp (b : Builder) : Op → Res Builder
  | .digField s => b.DigField s
  | .save => b.Save
  | .load => b.Load
  | .reset => b.Reset
  | .last => b.Last
  | .sliceLastOrCreate => b.SliceLastOrCreate
  | .sliceNewElem => b.SliceNewElem
  | .sliceAppend vt vv => b.SliceAppend vt vv
  | .setString s => b.SetString s
  | .setBool v => b.SetBool v
  | .setFloat bits => b.SetFloat bits
  | .setInt n => b.SetInt n

/-- Builder states reachable from `b0` by any sequence of operations; a
caller continues after a recoverable error, so error outcomes also step. -/
inductive Reachable (b0 : Builder) : Builder → Prop where
  | refl : Reachable b0 b0
  | stepOk {b b' : Builder} {op : Op} :
      Reachable b0 b → applyOp b op = .ok b' → Reachable b0 b'
  | stepErr {b b' : Builder} {op : Op} {e : RbError} :
      Reachable b0 b → applyOp b op = .err b' e → Reachable b0 b'

/-! ## Basic lemmas about values, paths and writes -/

theorem GoVals.length_push : ∀ (xs : GoVals) (w : GoVal),
    (xs.push w).length = xs.length + 1
  | .nil, _ => rfl
  | .cons v rest, w => by
    simp [GoVals.push, GoVals.length, GoVals.length_push rest w]

theorem GoVals.get?_push_self : ∀ (xs : GoVals) (w : GoVal),
    (xs.push w).get? xs.length = some w
  | .nil, _ => rfl
  | .cons v rest, w => by
    simpa [GoVals.push, GoVals.length, GoVals.get?] using
      GoVals.get?_push_self rest w

theorem GoVals.get?_set_self : ∀ (xs : GoVals) (i : Nat) (w w' : GoVal),
    xs.get? i = some w → (xs.set i w').get? i = some w'
  | .nil, i, _, _, h => by simp [GoVals.get?] at h
  | .cons v rest, 0, _, _, _ => rfl
  | .cons v rest, i + 1, w, w', h =>
    GoVals.get?_set_self rest i w w' (by simpa [GoVals.get?] using h)

theorem resolve_append (t : GoType) (v : GoVal) (p q : Path) :
    resolve t v (p ++ q) = (resolve t v p).bind (fun tv => resolve tv.1 tv.2 q) := by
  induction p generalizing t v with
  | nil => simp [resolve]
  | cons s p ih =>
    cases s <;> simp only [List.cons_append, resolve] <;>
      (repeat' split) <;> simp [ih]

/-- Writing through a resolvable path succeeds, and re-resolving the path
afterwards sees the written value at the unchanged slot type. -/
theorem writeAt_of_resolve (p : Path) (t : GoType) (v : GoVal) (ty : GoType)
    (w nv : GoVal) (h : resolve t v p = some (ty, w)) :
    ∃ v', writeAt v p nv = some v' ∧ resolve t v' p = some (ty, nv) := by
  induction p generalizing t v with
  | nil =>
    simp [resolve] at h
    exact ⟨nv, rfl, by simp [resolve, h]⟩
  | cons s p ih =>
    cases s with
    | field i =>
      simp only [resolve] at h
      split at h
      · rename_i fs vs
        split at h
        · rename_i f fw hf hw
          obtain ⟨v', hv', hr⟩ := ih _ _ h
          refine ⟨.vstruct (vs.set i v'), ?_, ?_⟩
          · simp [writeAt, hw, hv']
          · simp [resolve, hf, GoVals.get?_set_self vs i fw v' hw, hr]
        · exact absurd h (by simp)
      · exact absurd h (by simp)
    | index i =>
      simp only [resolve] at h
      split at h
      · rename_i e xs
        split at h
        · rename_i iw hw
          obtain ⟨v', hv', hr⟩ := ih _ _ h
          refine ⟨.vslice (xs.set i v'), ?_, ?_⟩
          · simp [writeAt, hw, hv']
          · simp [resolve, GoVals.get?_set_self xs i iw v' hw, hr]
        · exact absurd h (by simp)
      · exact absurd h (by simp)
    | deref =>
      simp only [resolve] at h
      split at h
      · rename_i e pw
        obtain ⟨v', hv', hr⟩ := ih _ _ h
        exact ⟨.vptr (.to v'), by simp [writeAt, hv'], by simp [resolve, hr]⟩
      · exact absurd h (by simp)
    | ifaceElem =>
      simp only [resolve] at h
      split at h
      · rename_i bt bw
        obtain ⟨v', hv', hr⟩ := ih _ _ h
        exact ⟨.viface (.box bt v'), by simp [writeAt, hv'], by simp [resolve, hr]⟩
      · exact absurd h (by simp)

/-- Writing through a resolvable, addressable reference succeeds, and
re-resolving the path in the updated builder sees the written value at an
unchanged slot type. -/
theorem writeStore_of_resolveAt (b : Builder) (p : Path) (ty : GoType)
    (w nv : GoVal) (hcs : canSet p = true)
    (h : b.resolveAt p = some (ty, w)) :
    ∃ st, b.writeStore p nv = some st ∧
      ({ b with store := some st } : Builder).resolveAt p = some (ty, nv) := by
  unfold Builder.resolveAt at h
  unfold Builder.writeStore
  rw [if_pos hcs]
  split at h
  · rename_i t v heq
    obtain ⟨v', hv', hr⟩ := writeAt_of_resolve p t v ty w nv h
    exact ⟨(t, v'), by simp [heq, hv'], by simp [Builder.resolveAt, hr]⟩
  · exact absurd h (by simp)

/-- Writing through a non-addressable reference is refused — every
`reflect.Value.Set*` panics on it. -/
theorem writeStore_unaddressable (b : Builder) (p : Path) (nv : GoVal)
    (hcs : canSet p = false) : b.writeStore p nv = none := by
  unfold Builder.writeStore
  rw [if_neg (by simp [hcs])]

/-! ## Per-operation state invariants

Every successful operation except `Reset` changes the cursor stack in one
of four ways, captured by `StackEvolves`; a recoverable error leaves the
stack untouched. -/

/-- How one non-`Reset` operation may transform the cursor stack: leave it
alone, replace the top, push a copy, or pop (only from depth ≥ 2). -/
def StackEvolves (s s' : List Path) : Prop :=
  s' = s ∨ (∃ q, s' = s.dropLast ++ [q]) ∨ (∃ q, s' = s ++ [q]) ∨
    (s' = s.dropLast ∧ 2 ≤ s.length)

theorem StackEvolves.ne_nil {s s' : List Path} (h : StackEvolves s s')
    (hs : s ≠ []) : s' ≠ [] := by
  rcases h with rfl | ⟨q, rfl⟩ | ⟨q, rfl⟩ | ⟨rfl, hlen⟩
  · exact hs
  · simp
  · simp
  · intro hnil
    have := List.length_dropLast s
    rw [hnil] at this
    simp at this
    omega

theorem head?_dropLast {α : Type} (s : List α) (h : 2 ≤ s.length) :
    s.dropLast.head? = s.head? := by
  match s, h with
  | a :: b :: t, _ => simp [List.dropLast]

theorem StackEvolves.head?_eq {s s' : List Path} (h : StackEvolves s s')
    (hlen : 2 ≤ s.length) : s'.head? = s.head? := by
  have hd : s.dropLast ≠ [] := by
    have := List.length_dropLast s
    intro hnil
    rw [hnil] at this
    simp at this
    omega
  rcases h with rfl | ⟨q, rfl⟩ | ⟨q, rfl⟩ | ⟨rfl, -⟩
  · rfl
  · rw [List.head?_append_of_ne_nil _ hd]
    exact head?_dropLast s hlen
  · rw [List.head?_append_of_ne_nil]
    intro hnil
    rw [hnil] at hlen
    simp at hlen
  · exact head?_dropLast s hlen

theorem DigField_ok_shape (b : Builder) (s : String) (b' : Builder)
    (h : b.DigField s = .ok b') :
    b'.root = b.root ∧ StackEvolves b.stack b'.stack := by
  unfold Builder.DigField at h
  repeat' split at h
  all_goals cases h
  exact ⟨rfl, .inr (.inl ⟨_, rfl⟩)⟩

theorem DigField_err_inv (b : Builder) (s : String) (b' : Builder) (e : RbError)
    (h : b.DigField s = .err b' e) : b'.stack = b.stack ∧ b'.root = b.root := by
  unfold Builder.DigField at h
  repeat' split at h
  all_goals cases h
  all_goals exact ⟨rfl, rfl⟩

theorem Save_ok_shape (b : Builder) (b' : Builder)
    (h : b.Save = .ok b') :
    b'.root = b.root ∧ StackEvolves b.stack b'.stack := by
  unfold Builder.Save at h
  repeat' split at h
  all_goals cases h
  exact ⟨rfl, .inr (.inr (.inl ⟨_, rfl⟩))⟩

theorem Load_ok_shape (b : Builder) (b' : Builder)
    (h : b.Load = .ok b') :
    b'.root = b.root ∧ StackEvolves b.stack b'.stack := by
  unfold Builder.Load at h
  split at h
  · cases h
  · cases h
    exact ⟨rfl, .inr (.inr (.inr ⟨rfl, by omega⟩))⟩

theorem Reset_ok_shape (b : Builder) (b' : Builder)
    (h : b.Reset = .ok b') : b'.root = b.root ∧ b'.stack = [b.root] := by
  unfold Builder.Reset at h
  split at h
  · cases h
  · cases h
    exact ⟨rfl, rfl⟩

theorem Last_ok_shape (b : Builder) (b' : Builder)
    (h : b.Last = .ok b') :
    b'.root = b.root ∧ StackEvolves b.stack b'.stack := by
  unfold Builder.Last at h
  repeat' split at h
  all_goals cases h
  all_goals first
    | exact ⟨rfl, .inl rfl⟩
    | exact ⟨rfl, .inr (.inl ⟨_, rfl⟩)⟩

theorem Last_err_inv (b : Builder) (b' : Builder) (e : RbError)
    (h : b.Last = .err b' e) : b'.stack = b.stack ∧ b'.root = b.root := by
  unfold Builder.Last at h
  repeat' split at h
  all_goals cases h

theorem SliceNewElem_ok_shape (b : Builder) (b' : Builder)
    (h : b.SliceNewElem = .ok b') :
    b'.root = b.root ∧ StackEvolves b.stack b'.stack := by
  unfold Builder.SliceNewElem at h
  repeat' split at h
  all_goals cases h
  exact ⟨rfl, .inr (.inl ⟨_, rfl⟩)⟩

theorem SliceNewElem_err_inv (b : Builder) (b' : Builder) (e : RbError)
    (h : b.SliceNewElem = .err b' e) : b'.stack = b.stack ∧ b'.root = b.root := by
  unfold Builder.SliceNewElem at h
  repeat' split at h
  all_goals cases h
  exact ⟨rfl, rfl⟩

theorem SliceLastOrCreate_ok_shape (b : Builder) (b' : Builder)
    (h : b.SliceLastOrCreate = .ok b') :
    b'.root = b.root ∧ StackEvolves b.stack b'.stack := by
  unfold Builder.SliceLastOrCreate at h
  repeat' split at h
  all_goals first
    | cases h
    | exact SliceNewElem_ok_shape b b' h
    | exact Last_ok_shape b b' h

theorem SliceLastOrCreate_err_inv (b : Builder) (b' : Builder) (e : RbError)
    (h : b.SliceLastOrCreate = .err b' e) :
    b'.stack = b.stack ∧ b'.root = b.root := by
  unfold Builder.SliceLastOrCreate at h
  repeat' split at h
  all_goals first
    | (cases h <;> exact ⟨rfl, rfl⟩)
    | exact SliceNewElem_err_inv b b' e h
    | exact Last_err_inv b b' e h

theorem sliceAppendTail_ok_shape (b1 : Builder) (p1 : Path) (t1 : GoType)
    (v1 : GoVal) (vt : GoType) (vv : GoVal) (b' : Builder)
    (h : b1.sliceAppendTail p1 t1 v1 vt vv = .ok b') :
    b'.root = b1.root ∧ StackEvolves b1.stack b'.stack := by
  unfold Builder.sliceAppendTail at h
  repeat' split at h
  all_goals cases h
  exact ⟨rfl, .inr (.inl ⟨_, rfl⟩)⟩

theorem sliceAppendTail_err_inv (b1 : Builder) (p1 : Path) (t1 : GoType)
    (v1 : GoVal) (vt : GoType) (vv : GoVal) (b' : Builder) (e : RbError)
    (h : b1.sliceAppendTail p1 t1 v1 vt vv = .err b' e) :
    b'.stack = b1.stack ∧ b'.root = b1.root := by
  unfold Builder.sliceAppendTail at h
  repeat' split at h
  all_goals cases h
  exact ⟨rfl, rfl⟩

theorem SliceAppend_ok_shape (b : Builder) (vt : GoType) (vv : GoVal)
    (b' : Builder) (h : b.SliceAppend vt vv = .ok b') :
    b'.root = b.root ∧ StackEvolves b.stack b'.stack := by
  unfold Builder.SliceAppend at h
  repeat' split at h
  all_goals first
    | cases h
    | (have hh := sliceAppendTail_ok_shape _ _ _ _ _ _ _ h; exact hh)

theorem SliceAppend_err_inv (b : Builder) (vt : GoType) (vv : GoVal)
    (b' : Builder) (e : RbError) (h : b.SliceAppend vt vv = .err b' e) :
    b'.stack = b.stack ∧ b'.root = b.root := by
  unfold Builder.SliceAppend at h
  repeat' split at h
  all_goals first
    | cases h
    | (have hh := sliceAppendTail_err_inv _ _ _ _ _ _ _ _ h; exact hh)

theorem SetString_ok_shape (b : Builder) (s : String) (b' : Builder)
    (h : b.SetString s = .ok b') :
    b'.root = b.root ∧ StackEvolves b.stack b'.stack := by
  unfold Builder.SetString at h
  repeat' split at h
  all_goals cases h
  all_goals exact ⟨rfl, .inl rfl⟩

theorem SetString_err_inv (b : Builder) (s : String) (b' : Builder) (e : RbError)
    (h : b.SetString s = .err b' e) : b'.stack = b.stack ∧ b'.root = b.root := by
  unfold Builder.SetString at h
  repeat' split at h
  all_goals cases h
  exact ⟨rfl, rfl⟩

theorem SetBool_ok_shape (b : Builder) (v : Bool) (b' : Builder)
    (h : b.SetBool v = .ok b') :
    b'.root = b.root ∧ StackEvolves b.stack b'.stack := by
  unfold Builder.SetBool at h
  repeat' split at h
  all_goals cases h
  exact ⟨rfl, .inl rfl⟩

theorem SetBool_err_inv (b : Builder) (v : Bool) (b' : Builder) (e : RbError)
    (h : b.SetBool v = .err b' e) : b'.stack = b.stack ∧ b'.root = b.root := by
  unfold Builder.SetBool at h
  repeat' split at h
  all_goals cases h
  exact ⟨rfl, rfl⟩

theorem SetFloat_ok_shape (b : Builder) (bits : Nat) (b' : Builder)
    (h : b.SetFloat bits = .ok b') :
    b'.root = b.root ∧ StackEvolves b.stack b'.stack := by
  unfold Builder.SetFloat at h
  repeat' split at h
  all_goals cases h
  exact ⟨rfl, .inl rfl⟩

theorem SetFloat_err_inv (b : Builder) (bits : Nat) (b' : Builder) (e : RbError)
    (h : b.SetFloat bits = .err b' e) : b'.stack = b.stack ∧ b'.root = b.root := by
  unfold Builder.SetFloat at h
  repeat' split at h
  all_goals cases h
  exact ⟨rfl, rfl⟩

theorem SetInt_ok_shape (b : Builder) (n : Int) (b' : Builder)
    (h : b.SetInt n = .ok b') :
    b'.root = b.root ∧ StackEvolves b.stack b'.stack := by
  unfold Builder.SetInt at h
  repeat' split at h
  all_goals cases h
  exact ⟨rfl, .inl rfl⟩

theorem SetInt_err_inv (b : Builder) (n : Int) (b' : Builder) (e : RbError)
    (h : b.SetInt n = .err b' e) : b'.stack = b.stack ∧ b'.root = b.root := by
  unfold Builder.SetInt at h
  repeat' split at h
  all_goals cases h
  exact ⟨rfl, rfl⟩

theorem Save_no_err (b b' : Builder) (e : RbError) (h : b.Save = .err b' e) :
    False := by
  unfold Builder.Save at h
  repeat' split at h
  all_goals cases h

theorem Load_no_err (b b' : Builder) (e : RbError) (h : b.Load = .err b' e) :
    False := by
  unfold Builder.Load at h
  split at h
  all_goals cases h

theorem Reset_no_err (b b' : Builder) (e : RbError) (h : b.Reset = .err b' e) :
    False := by
  unfold Builder.Reset at h
  split at h
  all_goals cases h

/-- Every successful non-`Reset` operation evolves the stack benignly and
keeps the recorded root. -/
theorem applyOp_ok_shape (b : Builder) (op : Op) (b' : Builder)
    (h : applyOp b op = .ok b') (hop : op ≠ .reset) :
    b'.root = b.root ∧ StackEvolves b.stack b'.stack := by
  cases op with
  | digField s => exact DigField_ok_shape b s b' h
  | save => exact Save_ok_shape b b' h
  | load => exact Load_ok_shape b b' h
  | reset => exact absurd rfl hop
  | last => exact Last_ok_shape b b' h
  | sliceLastOrCreate => exact SliceLastOrCreate_ok_shape b b' h
  | sliceNewElem => exact SliceNewElem_ok_shape b b' h
  | sliceAppend vt vv => exact SliceAppend_ok_shape b vt vv b' h
  | setString s => exact SetString_ok_shape b s b' h
  | setBool v => exact SetBool_ok_shape b v b' h
  | setFloat bits => exact SetFloat_ok_shape b bits b' h
  | setInt n => exact SetInt_ok_shape b n b' h

/-- A recoverable error from any operation leaves the cursor stack and the
recorded root untouched. -/
theorem applyOp_err_inv (b : Builder) (op : Op) (b' : Builder) (e : RbError)
    (h : applyOp b op = .err b' e) : b'.stack = b.stack ∧ b'.root = b.root := by
  cases op with
  | digField s => exact DigField_err_inv b s b' e h
  | save => exact (Save_no_err b b' e h).elim
  | load => exact (Load_no_err b b' e h).elim
  | reset => exact (Reset_no_err b b' e h).elim
  | last => exact Last_err_inv b b' e h
  | sliceLastOrCreate => exact SliceLastOrCreate_err_inv b b' e h
  | sliceNewElem => exact SliceNewElem_err_inv b b' e h
  | sliceAppend vt vv => exact SliceAppend_err_inv b vt vv b' e h
  | setString s => exact SetString_err_inv b s b' e h
  | setBool v => exact SetBool_err_inv b v b' e h
  | setFloat bits => exact SetFloat_err_inv b bits b' e h
  | setInt n => exact SetInt_err_inv b n b' e h

/-- Shape of a freshly constructed builder. -/
theorem NewBuilder_ok_shape (tag : String) (v : Option (GoType × GoVal))
    (b0 : Builder) (h : NewBuilder tag v = .ok b0) :
    b0.root = [] ∧ b0.stack = [[]] := by
  unfold NewBuilder at h
  repeat' split at h
  all_goals cases h
  exact ⟨rfl, rfl⟩

/-- Invariant of reachable builder states: the recorded root never
changes, and a non-empty stack stays non-empty. -/
theorem reachable_inv (b0 b : Builder) (h : Reachable b0 b) :
    b.root = b0.root ∧ (b0.stack ≠ [] → b.stack ≠ []) := by
  induction h with
  | refl => exact ⟨rfl, fun h => h⟩
  | @stepOk b1 b' op hr hop ih =>
    by_cases hres : op = .reset
    · subst hres
      obtain ⟨h1, h2⟩ := Reset_ok_shape b1 b' hop
      exact ⟨h1.trans ih.1, fun _ => by simp [h2]⟩
    · obtain ⟨h1, h2⟩ := applyOp_ok_shape b1 op b' hop hres
      exact ⟨h1.trans ih.1, fun hne => h2.ne_nil (ih.2 hne)⟩
  | @stepErr b1 b' op e hr hop ih =>
    obtain ⟨h1, h2⟩ := applyOp_err_inv b1 op b' e hop
    exact ⟨h2.trans ih.1, fun hne => h1 ▸ ih.2 hne⟩

/-! ## The claims -/

/-- C3: whenever a public Builder operation returns a recoverable error
(`IncorrectKind` or `FieldNotFound`), the cursor stack after the call is
the very same stack — in particular of the same length and with the same
top element — as before the call. -/
theorem claim_C3_error_leaves_stack (b : Builder) (op : Op) (b' : Builder)
    (e : RbError) (h : applyOp b op = .err b' e) :
    b'.stack = b.stack ∧ b'.stack.length = b.stack.length ∧
      b'.stack.getLast? = b.stack.getLast? := by
  obtain ⟨h1, -⟩ := applyOp_err_inv b op b' e h
  exact ⟨h1, by rw [h1], by rw [h1]⟩

theorem claim_C3_error_leaves_stack_witness :
    applyOp ⟨some (.uint, .vint 3), [], [[]], "t", ⟨[], []⟩⟩ (.setInt 7)
        = .err ⟨some (.uint, .vint 3), [], [[]], "t", ⟨[], []⟩⟩
          (.incorrectKind .uint .int) ∧
      (⟨some (.uint, .vint 3), [], [[]], "t", ⟨[], []⟩⟩ : Builder).stack
          = (⟨some (.uint, .vint 3), [], [[]], "t", ⟨[], []⟩⟩ : Builder).stack :=
  ⟨by decide,
    (claim_C3_error_leaves_stack _ (.setInt 7) _ (.incorrectKind .uint .int)
      (by decide)).1⟩

/-- C1 counterexample: from a freshly constructed builder over
`*struct{A int}`, a single `DigField` performed while the stack has
length 1 overwrites the bottom (and only) stack element with the field's
value, which is no longer the root. -/
theorem claim_C1_counterexample :
    NewBuilder "toml" (some (.ptr (.struct (.cons (.mk "A" [] true false .int) .nil)),
        .vptr (.to (.vstruct (.cons (.vint 0) .nil)))))
      = .ok ⟨some (.struct (.cons (.mk "A" [] true false .int) .nil),
          .vstruct (.cons (.vint 0) .nil)), [], [[]], "toml", ⟨[], []⟩⟩ ∧
    (⟨some (.struct (.cons (.mk "A" [] true false .int) .nil),
        .vstruct (.cons (.vint 0) .nil)), [], [[]], "toml",
        ⟨[], []⟩⟩ : Builder).stack.length = 1 ∧
    applyOp ⟨some (.struct (.cons (.mk "A" [] true false .int) .nil),
        .vstruct (.cons (.vint 0) .nil)), [], [[]], "toml", ⟨[], []⟩⟩
        (.digField "A")
      = .ok ⟨some (.struct (.cons (.mk "A" [] true false .int) .nil),
          .vstruct (.cons (.vint 0) .nil)), [], [[.field 0]], "toml",
          ⟨[[("A", [0])]],
            [(.struct (.cons (.mk "A" [] true false .int) .nil), 0)]⟩⟩ ∧
    (⟨some (.struct (.cons (.mk "A" [] true false .int) .nil),
        .vstruct (.cons (.vint 0) .nil)), [], [[.field 0]], "toml",
        ⟨[[("A", [0])]],
          [(.struct (.cons (.mk "A" [] true false .int) .nil), 0)]⟩⟩ :
        Builder).stack.length = 1 ∧
    (⟨some (.struct (.cons (.mk "A" [] true false .int) .nil),
        .vstruct (.cons (.vint 0) .nil)), [], [[.field 0]], "toml",
        ⟨[[("A", [0])]],
          [(.struct (.cons (.mk "A" [] true false .int) .nil), 0)]⟩⟩ :
        Builder).stack.head?
      ≠ some (⟨some (.struct (.cons (.mk "A" [] true false .int) .nil),
          .vstruct (.cons (.vint 0) .nil)), [], [[.field 0]], "toml",
          ⟨[[("A", [0])]],
            [(.struct (.cons (.mk "A" [] true false .int) .nil), 0)]⟩⟩ :
          Builder).root := by
  refine ⟨rfl, by decide, by decide, by decide, by decide⟩

/-- C1 (amended): stack elements below the top are never modified, so any
operation other than `Reset` performed while the stack has length ≥ 2
(whether it succeeds or returns a recoverable error) preserves the bottom
element; performed at stack length 1, the cursor-replacing operations
overwrite the bottom element, which then need not equal the root. -/
theorem claim_C1_bottom_preserved (b : Builder) (op : Op) (b' : Builder)
    (hop : op ≠ .reset) (hlen : 2 ≤ b.stack.length)
    (h : applyOp b op = .ok b' ∨ ∃ e, applyOp b op = .err b' e) :
    b'.stack.head? = b.stack.head? := by
  rcases h with h | ⟨e, h⟩
  · exact ((applyOp_ok_shape b op b' h hop).2).head?_eq hlen
  · rw [(applyOp_err_inv b op b' e h).1]

theorem claim_C1_bottom_preserved_witness :
    (Op.digField "A" ≠ Op.reset) ∧
      2 ≤ (⟨some (.struct (.cons (.mk "A" [] true false .int) .nil),
            .vstruct (.cons (.vint 0) .nil)), [], [[], []], "toml",
            ⟨[], []⟩⟩ : Builder).stack.length ∧
      applyOp ⟨some (.struct (.cons (.mk "A" [] true false .int) .nil),
          .vstruct (.cons (.vint 0) .nil)), [], [[], []], "toml", ⟨[], []⟩⟩
          (.digField "A")
        = .ok ⟨some (.struct (.cons (.mk "A" [] true false .int) .nil),
            .vstruct (.cons (.vint 0) .nil)), [], [[], [.field 0]], "toml",
            ⟨[[("A", [0])]],
              [(.struct (.cons (.mk "A" [] true false .int) .nil), 0)]⟩⟩ ∧
      (⟨some (.struct (.cons (.mk "A" [] true false .int) .nil),
          .vstruct (.cons (.vint 0) .nil)), [], [[], [.field 0]], "toml",
          ⟨[[("A", [0])]],
            [(.struct (.cons (.mk "A" [] true false .int) .nil), 0)]⟩⟩ :
          Builder).stack.head?
        = (⟨some (.struct (.cons (.mk "A" [] true false .int) .nil),
            .vstruct (.cons (.vint 0) .nil)), [], [[], []], "toml",
            ⟨[], []⟩⟩ : Builder).stack.head? :=
  ⟨by decide, by decide, by decide,
    claim_C1_bottom_preserved
      ⟨some (.struct (.cons (.mk "A" [] true false .int) .nil),
        .vstruct (.cons (.vint 0) .nil)), [], [[], []], "toml", ⟨[], []⟩⟩
      (.digField "A")
      ⟨some (.struct (.cons (.mk "A" [] true false .int) .nil),
        .vstruct (.cons (.vint 0) .nil)), [], [[], [.field 0]], "toml",
        ⟨[[("A", [0])]],
          [(.struct (.cons (.mk "A" [] true false .int) .nil), 0)]⟩⟩
      (by decide) (by decide) (.inl (by decide))⟩

/-- C2 counterexample: (i) `uint` is an (unsigned) integer kind, but
`SetInt` on a `uint`-kind cursor returns `IncorrectKind` instead of
succeeding; (ii) on an `int8` cursor, `SetInt 300` stores `44` (the
two's-complement truncation), not `300`; (iii) on a signed-int cursor
reached by digging through an interface field, `SetInt` does not succeed
either — the destination is unaddressable and the operation panics. -/
theorem claim_C2_counterexample :
    Builder.SetInt ⟨some (.uint, .vint 3), [], [[]], "t", ⟨[], []⟩⟩ 7
      = .err ⟨some (.uint, .vint 3), [], [[]], "t", ⟨[], []⟩⟩
        (.incorrectKind .uint .int) ∧
    Builder.SetInt ⟨some (.int8, .vint 0), [], [[]], "t", ⟨[], []⟩⟩ 300
      = .ok ⟨some (.int8, .vint 44), [], [[]], "t", ⟨[], []⟩⟩ ∧
    NewBuilder "t" (some (.ptr .iface, .vptr (.to (.viface (.box
        (.struct (.cons (.mk "A" [] true false .int) .nil))
        (.vstruct (.cons (.vint 0) .nil)))))))
      = .ok ⟨some (.iface, .viface (.box
          (.struct (.cons (.mk "A" [] true false .int) .nil))
          (.vstruct (.cons (.vint 0) .nil)))), [], [[]], "t", ⟨[], []⟩⟩ ∧
    Builder.DigField ⟨some (.iface, .viface (.box
        (.struct (.cons (.mk "A" [] true false .int) .nil))
        (.vstruct (.cons (.vint 0) .nil)))), [], [[]], "t", ⟨[], []⟩⟩ "A"
      = .ok ⟨some (.iface, .viface (.box
          (.struct (.cons (.mk "A" [] true false .int) .nil))
          (.vstruct (.cons (.vint 0) .nil)))), [],
          [[.ifaceElem, .field 0]], "t",
          ⟨[[("A", [0])]],
            [(.struct (.cons (.mk "A" [] true false .int) .nil), 0)]⟩⟩ ∧
    Builder.resolveAt ⟨some (.iface, .viface (.box
        (.struct (.cons (.mk "A" [] true false .int) .nil))
        (.vstruct (.cons (.vint 0) .nil)))), [],
        [[.ifaceElem, .field 0]], "t",
        ⟨[[("A", [0])]],
          [(.struct (.cons (.mk "A" [] true false .int) .nil), 0)]⟩⟩
        [.ifaceElem, .field 0]
      = some (.int, .vint 0) ∧
    Builder.SetInt ⟨some (.iface, .viface (.box
        (.struct (.cons (.mk "A" [] true false .int) .nil))
        (.vstruct (.cons (.vint 0) .nil)))), [],
        [[.ifaceElem, .field 0]], "t",
        ⟨[[("A", [0])]],
          [(.struct (.cons (.mk "A" [] true false .int) .nil), 0)]⟩⟩ 7
      = .fatal "reflect: unaddressable value" := by
  refine ⟨by decide, by decide, rfl, by decide, by decide, by decide⟩

/-- C2 (amended): `SetInt(n)` returns an `IncorrectKind` error on every
cursor whose kind is not a signed integer kind (`Int`..`Int64`) —
unsigned kinds included.  On a signed-integer-kind cursor it succeeds
only when the cursor is addressable (not obtained by unwrapping an
interface), storing `n` converted to the kind's width (two's-complement
truncation, the identity for in-range `n`) and leaving the stack
unchanged; on a non-addressable signed-integer cursor the underlying
`SetInt` panics. -/
theorem claim_C2_setInt (b : Builder) (p : Path) (t : GoType) (v : GoVal)
    (n : Int) (hp : b.stack.getLast? = some p)
    (hres : b.resolveAt p = some (t, v)) :
    (checkKindInt t.kind = none → canSet p = true →
      ∃ b', b.SetInt n = .ok b' ∧ b'.stack = b.stack ∧
        b'.resolveAt p = some (t, .vint (truncInt t.kind n)))
    ∧ (checkKindInt t.kind = none → canSet p = false →
        b.SetInt n = .fatal "reflect: unaddressable value")
    ∧ (checkKindInt t.kind ≠ none →
        b.SetInt n = .err b (.incorrectKind t.kind .int)) := by
  refine ⟨?_, ?_, ?_⟩
  · intro hk hcs
    obtain ⟨st, hw, hr⟩ :=
      writeStore_of_resolveAt b p t v (.vint (truncInt t.kind n)) hcs hres
    refine ⟨{ b with store := some st }, ?_, rfl, hr⟩
    unfold Builder.SetInt
    simp only [hp, hres, hk, hw]
  · intro hk hcs
    unfold Builder.SetInt
    simp only [hp, hres, hk, writeStore_unaddressable b p _ hcs]
  · intro hk
    unfold Builder.SetInt
    simp only [hp, hres]
    cases hck : checkKindInt t.kind with
    | none => exact absurd hck hk
    | some e =>
      simp only [hck]
      have he : e = .incorrectKind t.kind .int := by
        unfold checkKindInt at hck
        repeat' split at hck
        all_goals cases hck
        all_goals rfl
      rw [he]

theorem claim_C2_setInt_witness :
    ((⟨some (.int8, .vint 1), [], [[]], "t", ⟨[], []⟩⟩ : Builder).stack.getLast?
        = some []) ∧
      checkKindInt GoType.int8.kind = none ∧
      canSet [] = true ∧
      (∃ b', Builder.SetInt ⟨some (.int8, .vint 1), [], [[]], "t", ⟨[], []⟩⟩ 300
          = .ok b' ∧
        b'.stack = [[]] ∧
        b'.resolveAt [] = some (.int8, .vint (truncInt GoType.int8.kind 300))) :=
  ⟨by decide, by decide, by decide, by
    obtain ⟨b', h1, h2, h3⟩ :=
      (claim_C2_setInt ⟨some (.int8, .vint 1), [], [[]], "t", ⟨[], []⟩⟩ []
        .int8 (.vint 1) 300 (by decide) (by decide)).1 (by decide) (by decide)
    exact ⟨b', h1, h2, h3⟩⟩

/-- C4: `NewBuilder(tag, v)` returns an error exactly when `v` is absent
(nil interface) or not of pointer kind; on success the builder's root is
the single stack element and refers to the storage `v` points to
(`rvElem`, the model of `reflect.ValueOf(v).Elem()`). -/
theorem claim_C4_newBuilder (tag : String) (v : Option (GoType × GoVal)) :
    ((∃ s, NewBuilder tag v = .error s) ↔
      (v = none ∨ ∃ t gv, v = some (t, gv) ∧ t.kind ≠ .ptr))
    ∧ (∀ t gv b, v = some (t, gv) → NewBuilder tag v = .ok b →
        t.kind = .ptr ∧ b.root = [] ∧ b.stack = [b.root] ∧
          b.store = rvElem t gv ∧ b.nameTag = tag) := by
  constructor
  · constructor
    · rintro ⟨s, hs⟩
      cases v with
      | none => exact .inl rfl
      | some tv =>
        obtain ⟨t, gv⟩ := tv
        refine .inr ⟨t, gv, rfl, ?_⟩
        intro hk
        simp only [NewBuilder] at hs
        rw [if_neg (by simp [hk])] at hs
        cases hs
    · rintro (rfl | ⟨t, gv, rfl, hk⟩)
      · exact ⟨"cannot build a nil value", rfl⟩
      · exact ⟨"cannot build: need a pointer", by simp [NewBuilder, hk]⟩
  · rintro t gv b rfl hb
    simp only [NewBuilder] at hb
    split at hb
    · cases hb
    · rename_i hk
      cases hb
      exact ⟨by simpa using hk, rfl, rfl, rfl, rfl⟩

theorem claim_C4_newBuilder_witness :
    NewBuilder "t" (some (.ptr .int, .vptr (.to (.vint 5))))
        = .ok ⟨some (.int, .vint 5), [], [[]], "t", ⟨[], []⟩⟩ ∧
      (GoType.ptr .int).kind = .ptr ∧
      (⟨some (.int, .vint 5), [], [[]], "t", ⟨[], []⟩⟩ : Builder).root = [] ∧
      (⟨some (.int, .vint 5), [], [[]], "t", ⟨[], []⟩⟩ : Builder).stack
        = [(⟨some (.int, .vint 5), [], [[]], "t", ⟨[], []⟩⟩ : Builder).root] ∧
      (⟨some (.int, .vint 5), [], [[]], "t", ⟨[], []⟩⟩ : Builder).store
        = rvElem (.ptr .int) (.vptr (.to (.vint 5))) ∧
      (⟨some (.int, .vint 5), [], [[]], "t", ⟨[], []⟩⟩ : Builder).nameTag = "t" :=
  ⟨rfl,
    (claim_C4_newBuilder "t" (some (.ptr .int, .vptr (.to (.vint 5))))).2
      (.ptr .int) (.vptr (.to (.vint 5)))
      ⟨some (.int, .vint 5), [], [[]], "t", ⟨[], []⟩⟩ rfl rfl⟩

/-- C5 counterexample: (i) a cursor of pointer kind whose element type is
not `string` (here `*int`): the claim says `SetString` succeeds, but the
underlying `Set` with a freshly allocated `*string` panics on
assignability; (ii) a string cursor reached by digging through an
interface field: `SetString` panics as unaddressable instead of storing
the string. -/
theorem claim_C5_counterexample :
    Builder.SetString ⟨some (.ptr .int, .vptr .nil), [], [[]], "t", ⟨[], []⟩⟩ "x"
      = .fatal "reflect.Set: value of type *string is not assignable" ∧
    NewBuilder "t" (some (.ptr .iface, .vptr (.to (.viface (.box
        (.struct (.cons (.mk "A" [] true false .string) .nil))
        (.vstruct (.cons (.vstring "") .nil)))))))
      = .ok ⟨some (.iface, .viface (.box
          (.struct (.cons (.mk "A" [] true false .string) .nil))
          (.vstruct (.cons (.vstring "") .nil)))), [], [[]], "t", ⟨[], []⟩⟩ ∧
    Builder.DigField ⟨some (.iface, .viface (.box
        (.struct (.cons (.mk "A" [] true false .string) .nil))
        (.vstruct (.cons (.vstring "") .nil)))), [], [[]], "t", ⟨[], []⟩⟩ "A"
      = .ok ⟨some (.iface, .viface (.box
          (.struct (.cons (.mk "A" [] true false .string) .nil))
          (.vstruct (.cons (.vstring "") .nil)))), [],
          [[.ifaceElem, .field 0]], "t",
          ⟨[[("A", [0])]],
            [(.struct (.cons (.mk "A" [] true false .string) .nil), 0)]⟩⟩ ∧
    Builder.resolveAt ⟨some (.iface, .viface (.box
        (.struct (.cons (.mk "A" [] true false .string) .nil))
        (.vstruct (.cons (.vstring "") .nil)))), [],
        [[.ifaceElem, .field 0]], "t",
        ⟨[[("A", [0])]],
          [(.struct (.cons (.mk "A" [] true false .string) .nil), 0)]⟩⟩
        [.ifaceElem, .field 0]
      = some (.string, .vstring "") ∧
    Builder.SetString ⟨some (.iface, .viface (.box
        (.struct (.cons (.mk "A" [] true false .string) .nil))
        (.vstruct (.cons (.vstring "") .nil)))), [],
        [[.ifaceElem, .field 0]], "t",
        ⟨[[("A", [0])]],
          [(.struct (.cons (.mk "A" [] true false .string) .nil), 0)]⟩⟩ "x"
      = .fatal "reflect: unaddressable value" := by
  refine ⟨by decide, rfl, by decide, by decide, by decide⟩

/-- C5 (amended): on an addressable pointer-to-string cursor
`SetString(s)` succeeds, allocating a fresh string and pointing the slot
at it; on an addressable pointer cursor with any other element type the
underlying `Set` panics on assignability (fatal); on a non-addressable
(interface-unwrapped) pointer or string cursor it panics as
unaddressable; on an addressable string cursor it stores `s` directly;
on every other kind it returns `IncorrectKind`. -/
theorem claim_C5_setString (b : Builder) (p : Path) (t : GoType) (v : GoVal)
    (s : String) (hp : b.stack.getLast? = some p)
    (hres : b.resolveAt p = some (t, v)) :
    (t = .ptr .string → canSet p = true →
      ∃ b', b.SetString s = .ok b' ∧ b'.stack = b.stack ∧
        b'.resolveAt p = some (.ptr .string, .vptr (.to (.vstring s))))
    ∧ (∀ e, t = .ptr e → canSet p = true → e ≠ .string →
        b.SetString s = .fatal "reflect.Set: value of type *string is not assignable")
    ∧ (∀ e, t = .ptr e → canSet p = false →
        b.SetString s = .fatal "reflect: unaddressable value")
    ∧ (t = .string → canSet p = true →
      ∃ b', b.SetString s = .ok b' ∧ b'.stack = b.stack ∧
        b'.resolveAt p = some (.string, .vstring s))
    ∧ (t = .string → canSet p = false →
        b.SetString s = .fatal "reflect: unaddressable value")
    ∧ (t.kind ≠ .ptr → t.kind ≠ .string →
        b.SetString s = .err b (.incorrectKind t.kind .string)) := by
  refine ⟨?_, ?_, ?_, ?_, ?_, ?_⟩
  · rintro rfl hcs
    obtain ⟨st, hw, hr⟩ :=
      writeStore_of_resolveAt b p _ _ (.vptr (.to (.vstring s))) hcs hres
    refine ⟨{ b with store := some st }, ?_, rfl, hr⟩
    unfold Builder.SetString
    simp only [hp, hres, hw, hcs]
    rfl
  · rintro e rfl hcs hne
    unfold Builder.SetString
    simp only [hp, hres]
    rw [if_pos (show (GoType.ptr e).kind = Kind.ptr from rfl),
      if_pos hcs, if_neg hne]
  · rintro e rfl hcs
    unfold Builder.SetString
    simp only [hp, hres]
    rw [if_pos (show (GoType.ptr e).kind = Kind.ptr from rfl),
      if_neg (by simp [hcs])]
  · rintro rfl hcs
    obtain ⟨st, hw, hr⟩ :=
      writeStore_of_resolveAt b p _ _ (.vstring s) hcs hres
    refine ⟨{ b with store := some st }, ?_, rfl, hr⟩
    unfold Builder.SetString
    simp only [hp, hres, hw]
    rfl
  · rintro rfl hcs
    unfold Builder.SetString
    simp only [hp, hres, writeStore_unaddressable b p _ hcs]
    rfl
  · intro hk1 hk2
    unfold Builder.SetString
    simp only [hp, hres]
    rw [if_neg hk1, show checkKind t.kind .string
      = some (.incorrectKind t.kind .string) from by simp [checkKind, hk2]]

theorem claim_C5_setString_witness :
    ((⟨some (.ptr .string, .vptr .nil), [], [[]], "t", ⟨[], []⟩⟩ :
        Builder).stack.getLast? = some []) ∧
      canSet [] = true ∧
      (∃ b', Builder.SetString
          ⟨some (.ptr .string, .vptr .nil), [], [[]], "t", ⟨[], []⟩⟩ "hi"
            = .ok b' ∧
        b'.stack = [[]] ∧
        b'.resolveAt [] = some (.ptr .string, .vptr (.to (.vstring "hi")))) :=
  ⟨by decide, by decide, by
    obtain ⟨b', h1, h2, h3⟩ :=
      (claim_C5_setString ⟨some (.ptr .string, .vptr .nil), [], [[]], "t",
        ⟨[], []⟩⟩ [] (.ptr .string) (.vptr .nil) "hi" (by decide)
        (by decide)).1 rfl (by decide)
    exact ⟨b', h1, h2, h3⟩⟩

/-- C6: on a slice cursor, `SliceLastOrCreate` returns exactly the result
of `SliceNewElem` when the slice is empty and exactly the result of
`Last` when it is non-empty (where `Last` only moves the cursor to the
final element, changing neither the data nor the slice length); on a
non-slice cursor it returns `IncorrectKind`. -/
theorem claim_C6_sliceLastOrCreate (b : Builder) (p : Path) (t : GoType)
    (v : GoVal) (hp : b.stack.getLast? = some p)
    (hres : b.resolveAt p = some (t, v)) :
    (t.kind ≠ .slice →
      b.SliceLastOrCreate = .err b (.incorrectKind t.kind .slice))
    ∧ (∀ et xs, t = .slice et → v = .vslice xs →
        (xs.length = 0 → b.SliceLastOrCreate = b.SliceNewElem)
        ∧ (xs.length ≠ 0 →
            b.SliceLastOrCreate = b.Last ∧
            b.Last = .ok (b.replaceTop (p ++ [.index (xs.length - 1)])))) := by
  constructor
  · intro hk
    unfold Builder.SliceLastOrCreate
    simp only [hp, hres]
    rw [show checkKind t.kind .slice = some (.incorrectKind t.kind .slice)
      from by simp [checkKind, hk]]
  · rintro et xs rfl rfl
    constructor
    · intro hlen
      unfold Builder.SliceLastOrCreate
      simp only [hp, hres]
      rw [show checkKind (GoType.slice et).kind .slice = none from rfl]
      simp [hlen]
    · intro hlen
      have hlast : b.Last = .ok (b.replaceTop (p ++ [.index (xs.length - 1)])) := by
        unfold Builder.Last
        simp only [hp, hres]
        rw [if_pos (Nat.pos_of_ne_zero hlen)]
      refine ⟨?_, hlast⟩
      unfold Builder.SliceLastOrCreate
      simp only [hp, hres]
      rw [show checkKind (GoType.slice et).kind .slice = none from rfl]
      simp [hlen]

theorem claim_C6_sliceLastOrCreate_witness :
    ((⟨some (.slice .int, .vslice .nil), [], [[]], "t", ⟨[], []⟩⟩ :
        Builder).stack.getLast? = some []) ∧
      (GoVals.nil.length = 0) ∧
      Builder.SliceLastOrCreate
          ⟨some (.slice .int, .vslice .nil), [], [[]], "t", ⟨[], []⟩⟩
        = Builder.SliceNewElem
          ⟨some (.slice .int, .vslice .nil), [], [[]], "t", ⟨[], []⟩⟩ :=
  ⟨by decide, by decide,
    ((claim_C6_sliceLastOrCreate
        ⟨some (.slice .int, .vslice .nil), [], [[]], "t", ⟨[], []⟩⟩ []
        (.slice .int) (.vslice .nil) (by decide) (by decide)).2
      .int .nil rfl rfl).1 (by decide)⟩

/-- C7 counterexample: a slice cursor reached by digging through an
interface field (a cursor whose current value is a slice of length 0):
`SliceNewElem` does not succeed — the slice `reflect.Value` is
unaddressable and `t.Set(newSlice)` panics. -/
theorem claim_C7_counterexample :
    NewBuilder "t" (some (.ptr .iface, .vptr (.to (.viface (.box
        (.struct (.cons (.mk "A" [] true false (.slice .int)) .nil))
        (.vstruct (.cons (.vslice .nil) .nil)))))))
      = .ok ⟨some (.iface, .viface (.box
          (.struct (.cons (.mk "A" [] true false (.slice .int)) .nil))
          (.vstruct (.cons (.vslice .nil) .nil)))), [], [[]], "t", ⟨[], []⟩⟩ ∧
    Builder.DigField ⟨some (.iface, .viface (.box
        (.struct (.cons (.mk "A" [] true false (.slice .int)) .nil))
        (.vstruct (.cons (.vslice .nil) .nil)))), [], [[]], "t", ⟨[], []⟩⟩ "A"
      = .ok ⟨some (.iface, .viface (.box
          (.struct (.cons (.mk "A" [] true false (.slice .int)) .nil))
          (.vstruct (.cons (.vslice .nil) .nil)))), [],
          [[.ifaceElem, .field 0]], "t",
          ⟨[[("A", [0])]],
            [(.struct (.cons (.mk "A" [] true false (.slice .int)) .nil),
              0)]⟩⟩ ∧
    Builder.resolveAt ⟨some (.iface, .viface (.box
        (.struct (.cons (.mk "A" [] true false (.slice .int)) .nil))
        (.vstruct (.cons (.vslice .nil) .nil)))), [],
        [[.ifaceElem, .field 0]], "t",
        ⟨[[("A", [0])]],
          [(.struct (.cons (.mk "A" [] true false (.slice .int)) .nil), 0)]⟩⟩
        [.ifaceElem, .field 0]
      = some (.slice .int, .vslice .nil) ∧
    Builder.SliceNewElem ⟨some (.iface, .viface (.box
        (.struct (.cons (.mk "A" [] true false (.slice .int)) .nil))
        (.vstruct (.cons (.vslice .nil) .nil)))), [],
        [[.ifaceElem, .field 0]], "t",
        ⟨[[("A", [0])]],
          [(.struct (.cons (.mk "A" [] true false (.slice .int)) .nil), 0)]⟩⟩
      = .fatal "reflect: unaddressable value" := by
  refine ⟨rfl, by decide, by decide, by decide⟩

/-- C7 (amended): on an addressable slice cursor of length `N` (one not
obtained by unwrapping an interface), `SliceNewElem` succeeds, leaves the
slice at length `N + 1`, and positions the cursor at index `N`, whose
value is the zero value of the slice's element type; on a non-addressable
slice cursor the in-place `Set` of the grown slice panics (fatal) — it
does not succeed. -/
theorem claim_C7_sliceNewElem (b : Builder) (p : Path) (et : GoType)
    (xs : GoVals) (hp : b.stack.getLast? = some p)
    (hres : b.resolveAt p = some (.slice et, .vslice xs)) :
    (canSet p = true →
      ∃ b', b.SliceNewElem = .ok b'
        ∧ b'.resolveAt p = some (.slice et, .vslice (xs.push (zeroVal et)))
        ∧ (xs.push (zeroVal et)).length = xs.length + 1
        ∧ b'.stack = b.stack.dropLast ++ [p ++ [.index xs.length]]
        ∧ b'.stack.getLast? = some (p ++ [.index xs.length])
        ∧ b'.resolveAt (p ++ [.index xs.length]) = some (et, zeroVal et))
    ∧ (canSet p = false →
        b.SliceNewElem = .fatal "reflect: unaddressable value") := by
  constructor
  · intro hcs
    obtain ⟨st, hw, hr⟩ :=
      writeStore_of_resolveAt b p _ _ (.vslice (xs.push (zeroVal et))) hcs hres
    obtain ⟨sT, sV⟩ := st
    refine ⟨({ b with store := some (sT, sV) } : Builder).replaceTop
      (p ++ [.index xs.length]), ?_, hr, GoVals.length_push xs _, ?_, ?_, ?_⟩
    · unfold Builder.SliceNewElem
      simp only [hp, hres, hw]
      rfl
    · show b.stack.dropLast ++ [p ++ [Step.index xs.length]]
        = b.stack.dropLast ++ [p ++ [Step.index xs.length]]
      rfl
    · show (b.stack.dropLast ++ [p ++ [Step.index xs.length]]).getLast?
        = some (p ++ [Step.index xs.length])
      simp
    · have hr' : resolve sT sV p
          = some (.slice et, .vslice (xs.push (zeroVal et))) := hr
      show resolve sT sV (p ++ [Step.index xs.length]) = some (et, zeroVal et)
      rw [resolve_append, hr']
      simp [resolve, GoVals.get?_push_self xs (zeroVal et)]
  · intro hcs
    unfold Builder.SliceNewElem
    simp only [hp, hres, writeStore_unaddressable b p _ hcs]
    rfl

theorem claim_C7_sliceNewElem_witness :
    ((⟨some (.slice .bool, .vslice (.cons (.vbool true) .nil)), [], [[]],
        "t", ⟨[], []⟩⟩ : Builder).stack.getLast? = some []) ∧
      canSet [] = true ∧
      (∃ b', Builder.SliceNewElem
          ⟨some (.slice .bool, .vslice (.cons (.vbool true) .nil)), [], [[]],
            "t", ⟨[], []⟩⟩ = .ok b'
        ∧ b'.resolveAt [] = some (.slice .bool,
            .vslice ((GoVals.cons (.vbool true) .nil).push (zeroVal .bool)))
        ∧ ((GoVals.cons (.vbool true) .nil).push (zeroVal .bool)).length
            = (GoVals.cons (.vbool true) .nil).length + 1
        ∧ b'.stack = [[Step.index 1]]
        ∧ b'.resolveAt [Step.index 1] = some (.bool, zeroVal .bool)) :=
  ⟨by decide, by decide, by
    obtain ⟨b', h1, h2, h3, h4, h5, h6⟩ :=
      (claim_C7_sliceNewElem
        ⟨some (.slice .bool, .vslice (.cons (.vbool true) .nil)), [], [[]],
          "t", ⟨[], []⟩⟩ [] .bool (.cons (.vbool true) .nil)
        (by decide) (by decide)).1 (by decide)
    exact ⟨b', h1, h2, h3, by simpa using h4, by simpa using h6⟩⟩

/-- C8: from any builder state reachable by any operation sequence from a
freshly constructed builder, `Reset` succeeds and leaves the cursor stack
with exactly one element: the original root value. -/
theorem claim_C8_reset (tag : String) (v : Option (GoType × GoVal))
    (b0 b : Builder) (h0 : NewBuilder tag v = .ok b0)
    (hr : Reachable b0 b) :
    ∃ b', b.Reset = .ok b' ∧ b'.stack = [b0.root] := by
  obtain ⟨hroot, hstack0⟩ := NewBuilder_ok_shape tag v b0 h0
  obtain ⟨hbr, hbs⟩ := reachable_inv b0 b hr
  have hne : b.stack ≠ [] := hbs (by rw [hstack0]; simp)
  refine ⟨{ b with stack := [b.root] }, ?_, by simp [hbr]⟩
  unfold Builder.Reset
  split
  · rename_i hnil
    exact absurd hnil hne
  · rfl

theorem claim_C8_reset_witness :
    NewBuilder "t" (some (.ptr .int, .vptr (.to (.vint 0))))
        = .ok ⟨some (.int, .vint 0), [], [[]], "t", ⟨[], []⟩⟩ ∧
      applyOp ⟨some (.int, .vint 0), [], [[]], "t", ⟨[], []⟩⟩ .save
        = .ok ⟨some (.int, .vint 0), [], [[], []], "t", ⟨[], []⟩⟩ ∧
      (∃ b', Builder.Reset
          ⟨some (.int, .vint 0), [], [[], []], "t", ⟨[], []⟩⟩ = .ok b' ∧
        b'.stack = [(⟨some (.int, .vint 0), [], [[]], "t",
          ⟨[], []⟩⟩ : Builder).root]) :=
  ⟨rfl, by decide,
    claim_C8_reset "t" (some (.ptr .int, .vptr (.to (.vint 0))))
      ⟨some (.int, .vint 0), [], [[]], "t", ⟨[], []⟩⟩
      ⟨some (.int, .vint 0), [], [[], []], "t", ⟨[], []⟩⟩ rfl
      (@Reachable.stepOk ⟨some (.int, .vint 0), [], [[]], "t", ⟨[], []⟩⟩
        ⟨some (.int, .vint 0), [], [[]], "t", ⟨[], []⟩⟩
        ⟨some (.int, .vint 0), [], [[], []], "t", ⟨[], []⟩⟩ .save
        Reachable.refl (by decide))⟩

/-- C10: `DigField` on a cursor holding a nil pointer (or an interface
holding no value) does not return a recoverable error: the dereference
loop yields the invalid zero `reflect.Value`, whose `Type()` call
terminates the operation fatally. -/
theorem claim_C10_digField_fatal (b : Builder) (p : Path) (s : String)
    (hp : b.stack.getLast? = some p) :
    (∀ e, b.resolveAt p = some (.ptr e, .vptr .nil) →
      b.DigField s = .fatal "reflect: call of reflect.Value.Type on zero Value")
    ∧ (b.resolveAt p = some (.iface, .viface .nil) →
      b.DigField s = .fatal "reflect: call of reflect.Value.Type on zero Value") := by
  constructor
  · intro e hres
    unfold Builder.DigField
    simp only [hp, hres]
    rfl
  · intro hres
    unfold Builder.DigField
    simp only [hp, hres]
    rfl

theorem claim_C10_digField_fatal_witness :
    ((⟨some (.ptr .int, .vptr .nil), [], [[]], "t", ⟨[], []⟩⟩ :
        Builder).stack.getLast? = some []) ∧
      ((⟨some (.ptr .int, .vptr .nil), [], [[]], "t", ⟨[], []⟩⟩ :
        Builder).resolveAt [] = some (.ptr .int, .vptr .nil)) ∧
      Builder.DigField ⟨some (.ptr .int, .vptr .nil), [], [[]], "t",
          ⟨[], []⟩⟩ "Name"
        = .fatal "reflect: call of reflect.Value.Type on zero Value" :=
  ⟨by decide, by decide,
    (claim_C10_digField_fatal ⟨some (.ptr .int, .vptr .nil), [], [[]], "t",
      ⟨[], []⟩⟩ [] "Name" (by decide)).1 .int (by decide)⟩

/-! ## Cache lemmas for the embedded-struct aliasing claim -/

theorem lookupGo_insertGo_self (l : List (GoType × Nat)) (T : GoType) (id : Nat) :
    Cache.lookupEntry.go (Cache.insertEntry.go l T id) T = some id := by
  induction l with
  | nil => simp [Cache.insertEntry.go, Cache.lookupEntry.go]
  | cons hd tl ih =>
    obtain ⟨T', id'⟩ := hd
    by_cases hT : T' = T
    · subst hT
      simp [Cache.insertEntry.go, Cache.lookupEntry.go]
    · simp [Cache.insertEntry.go, Cache.lookupEntry.go, hT, ih]

theorem lookupGo_insertGo_other (l : List (GoType × Nat)) (T T' : GoType)
    (id : Nat) (h : T' ≠ T) :
    Cache.lookupEntry.go (Cache.insertEntry.go l T id) T'
      = Cache.lookupEntry.go l T' := by
  induction l with
  | nil =>
    simp only [Cache.insertEntry.go, Cache.lookupEntry.go]
    rw [if_neg (fun hc => h hc.symm)]
  | cons hd tl ih =>
    obtain ⟨T0, id0⟩ := hd
    by_cases hT : T0 = T
    · subst hT
      simp only [Cache.insertEntry.go, if_pos rfl, Cache.lookupEntry.go]
      rw [if_neg (fun hc => h hc.symm), if_neg (fun hc => h hc.symm)]
    · simp only [Cache.insertEntry.go, if_neg hT, Cache.lookupEntry.go]
      by_cases hT' : T0 = T'
      · rw [if_pos hT', if_pos hT']
      · rw [if_neg hT', if_neg hT', ih]

theorem lookupEntry_insertEntry_self (c : Cache) (T : GoType) (id : Nat) :
    (c.insertEntry T id).lookupEntry T = some id :=
  lookupGo_insertGo_self c.entries T id

theorem lookupEntry_insertEntry_other (c : Cache) (T T' : GoType) (id : Nat)
    (h : T' ≠ T) : (c.insertEntry T id).lookupEntry T' = c.lookupEntry T' :=
  lookupGo_insertGo_other c.entries T T' id h

mutual
/-- While filling heap slot `id`, the walk only ever records `id` as a
cache entry: every type's entry is either untouched or set to `id`. -/
theorem genRec_entries (s : GoType) (tag : String) (c : Cache) (id : Nat)
    (idx : List Nat) (c' : Cache) (h : genRec tag c id idx s = some c')
    (T : GoType) :
    c'.lookupEntry T = c.lookupEntry T ∨ c'.lookupEntry T = some id := by
  unfold genRec at h
  split at h
  · rename_i fs
    split at h
    · rename_i cg hg
      cases h
      by_cases hT : T = .struct fs
      · subst hT
        exact .inr (lookupEntry_insertEntry_self _ _ _)
      · rw [lookupEntry_insertEntry_other _ _ _ _ hT]
        exact genFields_entries fs tag c id idx 0 cg hg T
    · cases h
  · cases h

theorem genFields_entries (fs : GoFields) (tag : String) (c : Cache)
    (id : Nat) (idx : List Nat) (i : Nat) (c' : Cache)
    (h : genFields tag c id idx i fs = some c') (T : GoType) :
    c'.lookupEntry T = c.lookupEntry T ∨ c'.lookupEntry T = some id := by
  unfold genFields at h
  split at h
  · cases h
    exact .inl rfl
  · rename_i nm tags exported anonymous ty fs'
    split at h
    · exact genFields_entries fs' tag c id idx (i + 1) c' h T
    · split at h
      · split at h
        · rename_i c1 h1
          rcases genFields_entries fs' tag c1 id idx (i + 1) c' h T with h2 | h2
          · rw [h2]
            exact genRec_entries ty tag c id (copyAndAppend idx i) c1 h1 T
          · exact .inr h2
        · cases h
      · rcases genFields_entries fs' tag _ id idx (i + 1) c' h T with h2 | h2
        · rw [h2]
          exact .inl rfl
        · exact .inr h2
end

/-- `genRec` only succeeds on struct types. -/
theorem genRec_kind (s : GoType) (tag : String) (c : Cache) (id : Nat)
    (idx : List Nat) (c' : Cache) (h : genRec tag c id idx s = some c') :
    s.kind = .struct := by
  unfold genRec at h
  split at h
  · rfl
  · cases h

/-- `genRec` records its own type under the slot it filled. -/
theorem genRec_self (s : GoType) (tag : String) (c : Cache) (id : Nat)
    (idx : List Nat) (c' : Cache) (h : genRec tag c id idx s = some c') :
    c'.lookupEntry s = some id := by
  unfold genRec at h
  split at h
  · split at h
    · cases h
      exact lookupEntry_insertEntry_self _ _ _
    · cases h
  · cases h

/-- After a successful field walk, every exported anonymous field's type
is cached under the same heap slot `id` as the enclosing struct, and is
itself a struct type. -/
theorem genFields_anon : ∀ (fs : GoFields) (j : Nat) (tag : String)
    (c : Cache) (id : Nat) (idx : List Nat) (i : Nat) (c' : Cache)
    (nm : String) (tags : List (String × String)) (E : GoType),
    genFields tag c id idx i fs = some c' →
    fs.get? j = some (.mk nm tags true true E) →
    c'.lookupEntry E = some id ∧ E.kind = .struct
  | .nil, j, tag, c, id, idx, i, c', nm, tags, E, h, hj => by
    cases j <;> simp [GoFields.get?] at hj
  | .cons f fs', 0, tag, c, id, idx, i, c', nm, tags, E, h, hj => by
    obtain rfl : f = .mk nm tags true true E := by
      simpa [GoFields.get?] using hj
    unfold genFields at h
    rw [if_neg (by simp : ¬(true = false))] at h
    rw [if_pos rfl] at h
    split at h
    · rename_i c1 h1
      refine ⟨?_, genRec_kind E tag c id (copyAndAppend idx i) c1 h1⟩
      have hself : c1.lookupEntry E = some id :=
        genRec_self E tag c id (copyAndAppend idx i) c1 h1
      rcases genFields_entries fs' tag c1 id idx (i + 1) c' h E with h2 | h2
      · rw [h2]
        exact hself
      · exact h2
    · cases h
  | .cons f fs', j + 1, tag, c, id, idx, i, c', nm, tags, E, h, hj => by
    have hj' : fs'.get? j = some (.mk nm tags true true E) := by
      simpa [GoFields.get?] using hj
    obtain ⟨fn, ft, fe, fa, fty⟩ := f
    unfold genFields at h
    split at h
    · exact genFields_anon fs' j tag c id idx (i + 1) c' nm tags E h hj'
    · split at h
      · split at h
        · rename_i c1 h1
          exact genFields_anon fs' j tag c1 id idx (i + 1) c' nm tags E h hj'
        · cases h
      · exact genFields_anon fs' j tag _ id idx (i + 1) c' nm tags E h hj'

/-- C9: after field getters are built for a struct type `S` with an
exported anonymous (embedded) struct field of type `E`, the resolution
cache also holds an entry for `E` that points to the very same map (heap
slot) as `S`'s entry — the accessors, with index paths relative to `S`,
are shared.  A later resolution directly against `E` is a cache hit: it
returns `S`'s map and leaves the cache unchanged, building no map
specific to `E`. -/
theorem claim_C9_embedded_alias (tag : String) (c : Cache) (fs : GoFields)
    (j : Nat) (nm : String) (tags : List (String × String)) (E : GoType)
    (m : FieldMap) (c' : Cache)
    (hf : fs.get? j = some (.mk nm tags true true E))
    (hmiss : c.lookupEntry (.struct fs) = none)
    (hok : getOrGenerateFieldGetters tag c (.struct fs) = some (m, c')) :
    ∃ id, c'.lookupEntry (.struct fs) = some id ∧
      c'.lookupEntry E = some id ∧ c'.mapAt id = m ∧
      getOrGenerateFieldGetters tag c' E = some (m, c') := by
  unfold getOrGenerateFieldGetters at hok
  rw [if_neg (by simp [GoType.kind])] at hok
  split at hok
  · rename_i id0 heq
    rw [hmiss] at heq
    cases heq
  · split at hok
    · cases hok
    · rename_i c2 hg
      cases hok
      have hEg : c2.lookupEntry E = some c.maps.length ∧ E.kind = .struct := by
        unfold genRec at hg
        split at hg
        · rename_i cg hfields
          cases hg
          obtain ⟨h1, h2⟩ := genFields_anon fs j tag _ c.maps.length [] 0 cg
            nm tags E hfields hf
          refine ⟨?_, h2⟩
          by_cases hT : E = .struct fs
          · subst hT
            exact lookupEntry_insertEntry_self _ _ _
          · rw [lookupEntry_insertEntry_other _ _ _ _ hT]
            exact h1
        · cases hg
      have hlook : (c2.insertEntry (.struct fs) c.maps.length).lookupEntry E
          = some c.maps.length := by
        by_cases hT : E = .struct fs
        · subst hT
          exact lookupEntry_insertEntry_self _ _ _
        · rw [lookupEntry_insertEntry_other _ _ _ _ hT]
          exact hEg.1
      refine ⟨c.maps.length, lookupEntry_insertEntry_self _ _ _, hlook, rfl, ?_⟩
      unfold getOrGenerateFieldGetters
      rw [if_neg (by simp [hEg.2])]
      rw [hlook]

theorem claim_C9_embedded_alias_witness :
    ((GoFields.cons
        (.mk "" [] true true (.struct (.cons (.mk "ID" [] true false .int) .nil)))
        (.cons (.mk "B" [] true false .bool) .nil)).get? 0
      = some (.mk "" [] true true
          (.struct (.cons (.mk "ID" [] true false .int) .nil)))) ∧
    ((⟨[], []⟩ : Cache).lookupEntry (.struct (.cons
        (.mk "" [] true true (.struct (.cons (.mk "ID" [] true false .int) .nil)))
        (.cons (.mk "B" [] true false .bool) .nil))) = none) ∧
    getOrGenerateFieldGetters "toml" ⟨[], []⟩ (.struct (.cons
        (.mk "" [] true true (.struct (.cons (.mk "ID" [] true false .int) .nil)))
        (.cons (.mk "B" [] true false .bool) .nil)))
      = some ([("ID", [0, 0]), ("B", [1])],
          ⟨[[("ID", [0, 0]), ("B", [1])]],
            [(.struct (.cons (.mk "ID" [] true false .int) .nil), 0),
              (.struct (.cons
                (.mk "" [] true true
                  (.struct (.cons (.mk "ID" [] true false .int) .nil)))
                (.cons (.mk "B" [] true false .bool) .nil)), 0)]⟩) ∧
    (∃ id,
      Cache.lookupEntry ⟨[[("ID", [0, 0]), ("B", [1])]],
          [(.struct (.cons (.mk "ID" [] true false .int) .nil), 0),
            (.struct (.cons
              (.mk "" [] true true
                (.struct (.cons (.mk "ID" [] true false .int) .nil)))
              (.cons (.mk "B" [] true false .bool) .nil)), 0)]⟩
          (.struct (.cons
            (.mk "" [] true true
              (.struct (.cons (.mk "ID" [] true false .int) .nil)))
            (.cons (.mk "B" [] true false .bool) .nil))) = some id ∧
        Cache.lookupEntry ⟨[[("ID", [0, 0]), ("B", [1])]],
            [(.struct (.cons (.mk "ID" [] true false .int) .nil), 0),
              (.struct (.cons
                (.mk "" [] true true
                  (.struct (.cons (.mk "ID" [] true false .int) .nil)))
                (.cons (.mk "B" [] true false .bool) .nil)), 0)]⟩
            (.struct (.cons (.mk "ID" [] true false .int) .nil)) = some id ∧
        Cache.mapAt ⟨[[("ID", [0, 0]), ("B", [1])]],
            [(.struct (.cons (.mk "ID" [] true false .int) .nil), 0),
              (.struct (.cons
                (.mk "" [] true true
                  (.struct (.cons (.mk "ID" [] true false .int) .nil)))
                (.cons (.mk "B" [] true false .bool) .nil)), 0)]⟩ id
          = [("ID", [0, 0]), ("B", [1])] ∧
        getOrGenerateFieldGetters "toml" ⟨[[("ID", [0, 0]), ("B", [1])]],
            [(.struct (.cons (.mk "ID" [] true false .int) .nil), 0),
              (.struct (.cons
                (.mk "" [] true true
                  (.struct (.cons (.mk "ID" [] true false .int) .nil)))
                (.cons (.mk "B" [] true false .bool) .nil)), 0)]⟩
            (.struct (.cons (.mk "ID" [] true false .int) .nil))
          = some ([("ID", [0, 0]), ("B", [1])],
              ⟨[[("ID", [0, 0]), ("B", [1])]],
                [(.struct (.cons (.mk "ID" [] true false .int) .nil), 0),
                  (.struct (.cons
                    (.mk "" [] true true
                      (.struct (.cons (.mk "ID" [] true false .int) .nil)))
                    (.cons (.mk "B" [] true false .bool) .nil)), 0)]⟩)) :=
  ⟨rfl, rfl, by decide,
    claim_C9_embedded_alias "toml" ⟨[], []⟩
      (.cons
        (.mk "" [] true true (.struct (.cons (.mk "ID" [] true false .int) .nil)))
        (.cons (.mk "B" [] true false .bool) .nil))
      0 "" [] (.struct (.cons (.mk "ID" [] true false .int) .nil))
      [("ID", [0, 0]), ("B", [1])]
      ⟨[[("ID", [0, 0]), ("B", [1])]],
        [(.struct (.cons (.mk "ID" [] true false .int) .nil), 0),
          (.struct (.cons
            (.mk "" [] true true
              (.struct (.cons (.mk "ID" [] true false .int) .nil)))
            (.cons (.mk "B" [] true false .bool) .nil)), 0)]⟩
      rfl rfl (by decide)⟩

end Reflectbuild
